import Mathlib

/- Verification development for the Tableau metadata-ingestion connector
   (metadata-ingestion/src/datahub/ingestion/source/tableau.py).
   Python strings are modelled as lists of characters; dictionary keys that
   the source reads with dict.get are modelled as Option fields, with the
   source's defaults applied at the use sites, mirroring the Python code. -/

/-- Python strings are modelled as lists of characters. -/
abbrev PyStr := List Char

/-- Source line 80: the reserved separator character that replaces a literal
slash inside a browse-path name component. -/
def REPLACE_SLASH_CHAR : Char := '|'

/-- Python `s.replace("/", REPLACE_SLASH_CHAR)` for a one-character pattern:
every occurrence of the slash character is mapped to the separator. -/
def replaceSlash (s : PyStr) : PyStr :=
  s.map (fun c => if c = '/' then REPLACE_SLASH_CHAR else c)

/-- Python `s.lower()` restricted to the characters the connector handles. -/
def strToLower (s : PyStr) : PyStr := s.map Char.toLower

/-- Python f-string interpolation of a value that may be None:
`None` renders as the four characters "None". -/
def fstrOpt (s : Option PyStr) : PyStr :=
  match s with
  | none => ("None").toList
  | some v => v

/-- Python `x or ""` on a string: an empty string is replaced by the empty
string (identity on content, kept for faithfulness to source line 825). -/
def orEmpty (s : PyStr) : PyStr := if s.isEmpty then [] else s

/-- Python truthiness of an Optional[str]: None and "" are falsy. -/
def truthyOptStr : Option PyStr → Bool
  | none => false
  | some s => !s.isEmpty

/-- Python truthiness of an Optional[bool]: None is falsy. -/
def truthyOptBool : Option Bool → Bool
  | none => false
  | some b => b

/-- The platform constant of the source (class attribute, line 111). -/
def tableauPlatform : PyStr := ("tableau").toList

/-- Browse paths in the source are assembled by an f-string that prefixes
each component with a slash; the component list is kept explicit so that
per-component properties can be stated. -/
def assemble_browse_path (components : List PyStr) : PyStr :=
  (components.map (fun c => '/' :: c)).flatten

/-- TableauConfig (source lines 83-101): the configuration surface consumed
by the connector. -/
structure TableauConfigModel where
  connect_uri : PyStr
  username : Option PyStr
  password : Option PyStr
  token_name : Option PyStr
  token_value : Option PyStr
  site : PyStr
  projects : Option (List PyStr)
  default_schema_map : List (PyStr × PyStr)
  ingest_tags : Option Bool
  ingest_owner : Option Bool
  workbooks_page_size : Nat
  env : PyStr
deriving DecidableEq

/- Pagination (C1). get_connection_object (lines 166-187) issues one
GraphQL query per call with a requested count and an offset, and reports
the connection's totalCount and pageInfo.hasNextPage. The server is
modelled by the spec's connection contract: after fetching `count` items
at `offset` from a connection holding `total` items, hasNextPage is true
exactly when items remain beyond offset + count. -/

/-- Server model of pageInfo.hasNextPage for a connection of `total` items
after a fetch of `count` items at `offset`. -/
def serverHasNextPage (total offset count : Nat) : Bool :=
  decide (offset + count < total)

/-- The while-loop of emit_workbooks (lines 201-220): while has_next_page,
request `page_size` items, or the remainder `total - current` on the final
page, at offset `current`; then advance `current` by the requested count.
Each emitted triple is (offset, requested_count, has_next reported by the
fetch). The fuel argument is a termination bound only. -/
def workbook_page_loop (total page_size : Nat) : Nat → Nat → Bool → List (Nat × Nat × Bool)
  | 0, _, _ => []
  | fuel + 1, current, hasNext =>
    if hasNext then
      let count := if current + page_size < total then page_size else total - current
      let h := serverHasNextPage total current count
      (current, count, h) :: workbook_page_loop total page_size fuel (current + count) h
    else []

/-- emit_workbooks' full fetch sequence (lines 197-220): an initial probing
fetch requesting 0 items at offset 0 (count and current_count default to 0
in get_connection_object), which only learns totalCount and hasNextPage,
followed by the pagination loop. -/
def emit_workbooks_fetches (total page_size fuel : Nat) : List (Nat × Nat × Bool) :=
  (0, 0, serverHasNextPage total 0 0) ::
    workbook_page_loop total page_size fuel 0 (serverHasNextPage total 0 0)

/- Field type mapping (C3). The fixed table FIELD_TYPE_MAPPING is imported
from datahub.ingestion.source.tableau_common, which is not part of this
tree; the source reads it only through dict.get with NullTypeClass as the
default (lines 367, 442, 650), so the lookup is embedded over an arbitrary
table and every statement holds for the fixed one. -/

/-- Modelled from the spec: the canonical schema type tags. The designated
unknown/null marker is NullTypeClass (imported at source line 57); the
remaining tags populate FIELD_TYPE_MAPPING in tableau_common, which is not
under this tree, so they are kept abstract as named tags. -/
inductive SchemaTypeTag
  | nullTypeClass
  | otherTypeClass (name : PyStr)
deriving DecidableEq

/-- Python `FIELD_TYPE_MAPPING.get(nativeDataType, NullTypeClass)`:
dictionary lookup with a default, which never raises. Python dictionaries
have unique keys, so first-match lookup is faithful. -/
def fieldTypeMappingGet (table : List (PyStr × SchemaTypeTag)) (native : PyStr) : SchemaTypeTag :=
  match table with
  | [] => SchemaTypeTag.nullTypeClass
  | (k, v) :: rest => if k = native then v else fieldTypeMappingGet rest native

/-- The default native type string used when the node lacks the key
(lines 366, 441, 649). -/
def unknownNativeType : PyStr := ("UNKNOWN").toList

/- Node shapes. Each structure lists the keys of the corresponding JSON
node that the source reads; keys read through dict.get are Options. -/

/-- A column of an upstream database table. The source reads name by direct
subscript (line 653) and remoteType through dict.get (line 649). -/
structure TableColumnNode where
  name : PyStr
  remoteType : Option PyStr
deriving DecidableEq

/-- An upstream database table node as read by
_create_upstream_table_lineage (lines 248-272). -/
structure UpstreamTableNode where
  name : Option PyStr
  schema : Option PyStr
  connectionType : Option PyStr
  columns : Option (List TableColumnNode)
deriving DecidableEq

/-- An upstream database node (line 246 reads only its name). -/
structure DatabaseNode where
  name : Option PyStr
deriving DecidableEq

/-- A column reference inside a datasource field: _track_custom_sql_ids
reads column.get("table", {}).get("id") (line 233). -/
structure ColumnRefNode where
  tableId : Option PyStr
deriving DecidableEq

/-- A field of an embedded datasource as read by
_get_schema_metadata_for_embedded_datasource (lines 437-460); name is read
by direct subscript (line 445), the rest through dict.get. -/
structure DatasourceFieldNode where
  name : PyStr
  dataType : Option PyStr
  description : Option PyStr
  formula : Option PyStr
  typename : Option PyStr
  role : Option PyStr
  aggregation : Option PyStr
  columns : Option (List ColumnRefNode)
deriving DecidableEq

/-- A datasource node (embedded or published) as read by emit_datasource
and _create_upstream_table_lineage. -/
structure DatasourceNode where
  id : Option PyStr
  name : Option PyStr
  typename : Option PyStr
  projectName : Option PyStr
  upstreamDatabases : Option (List DatabaseNode)
  upstreamTables : Option (List UpstreamTableNode)
  fields : Option (List DatasourceFieldNode)
deriving DecidableEq

/-- A workbook node; only the keys the verified properties touch are
listed (id is read by direct subscript at line 808). -/
structure WorkbookNode where
  id : PyStr
  name : Option PyStr
  projectName : Option PyStr
  embeddedDatasources : Option (List DatasourceNode)
deriving DecidableEq

/-- A sheet node as used by the chart browse path (lines 730-738). -/
structure SheetNode where
  name : Option PyStr
deriving DecidableEq

/-- A dashboard node as used by the dashboard browse path (lines 825,
840-848). -/
structure DashboardNode where
  name : Option PyStr
deriving DecidableEq

/-- A column of a custom SQL table as read by
get_schema_metadata_for_custom_sql (lines 363-373); every key is read
through dict.get. -/
structure CSqlColumnNode where
  name : Option PyStr
  remoteType : Option PyStr
  description : Option PyStr
deriving DecidableEq

/- Schema metadata. -/

/-- A schema field as constructed by the source. The source's keyword
`type` is rendered as `ftype`. The globalTags argument of the embedded
variant is built by tableau_common helpers that are not under this tree
and is referenced by none of the verified properties, so it is omitted. -/
structure SchemaField where
  fieldPath : PyStr
  ftype : SchemaTypeTag
  nativeDataType : PyStr
  description : PyStr
deriving DecidableEq

/-- SchemaMetadata as constructed by the source (schemaName "test",
platform urn, version 0, empty hash, OtherSchema platformSchema). -/
structure SchemaMetadata where
  schemaName : PyStr
  platform : PyStr
  version : Nat
  fields : List SchemaField
  hash : PyStr
deriving DecidableEq

/-- The platform urn interpolated at lines 378, 466, 663. -/
def dataPlatformUrn : PyStr := ("urn:li:dataPlatform:tableau").toList

/-- The schema field built for one custom SQL column (lines 366-373). -/
def mkCustomSqlSchemaField (ftm : List (PyStr × SchemaTypeTag)) (field : CSqlColumnNode) : SchemaField :=
  let nativeDataType := field.remoteType.getD unknownNativeType
  { fieldPath := field.name.getD []
    ftype := fieldTypeMappingGet ftm nativeDataType
    nativeDataType := nativeDataType
    description := field.description.getD [] }

/-- The SchemaMetadata value built on one iteration of
get_schema_metadata_for_custom_sql (lines 365-383): the accumulating list
is reset to [field] on each iteration, so each iteration's value holds
exactly the field of that column. -/
def custom_sql_schema (ftm : List (PyStr × SchemaTypeTag)) (field : CSqlColumnNode) : SchemaMetadata :=
  { schemaName := ("test").toList
    platform := dataPlatformUrn
    version := 0
    fields := [mkCustomSqlSchemaField ftm field]
    hash := [] }

/-- get_schema_metadata_for_custom_sql (lines 359-384): schema_metadata
starts as None and is overwritten on every loop iteration with a
SchemaMetadata holding only that iteration's field. -/
def get_schema_metadata_for_custom_sql (ftm : List (PyStr × SchemaTypeTag)) (columns : List CSqlColumnNode) : Option SchemaMetadata :=
  columns.foldl (fun _sm field => some (custom_sql_schema ftm field)) none

/-- Modelled from the spec: make_description_from_params lives in
tableau_common, which is not under this tree; the spec states that a
description is the provided description if non-empty, else the formula if
present, else empty. -/
def make_description_from_params (description : PyStr) (formula : Option PyStr) : PyStr :=
  if description.isEmpty then formula.getD [] else description

/-- The schema field built for one embedded-datasource field
(lines 441-460), tags omitted as documented on SchemaField. -/
def mkEmbeddedSchemaField (ftm : List (PyStr × SchemaTypeTag)) (field : DatasourceFieldNode) : SchemaField :=
  let nativeDataType := field.dataType.getD unknownNativeType
  { fieldPath := field.name
    ftype := fieldTypeMappingGet ftm nativeDataType
    nativeDataType := nativeDataType
    description := make_description_from_params (field.description.getD []) field.formula }

/- Reference tracker (C4). -/

/-- The single tracking operation the source uses for both identifier
lists (lines 235-239 and 521-522, also 716-717): append the identifier
only if it is not already tracked. -/
def recordId (l : List PyStr) (x : PyStr) : List PyStr :=
  if x ∈ l then l else l ++ [x]

/-- A whole run of the tracker from its empty initial state (lines 125,
128), recording each identifier of `ops` in order. -/
def trackIdentifiers (ops : List PyStr) : List PyStr :=
  ops.foldl recordId []

/-- Specification-side definition for C4: keep the first occurrence of
each identifier, in order of first occurrence. -/
def firstOccurrenceDedup : List PyStr → List PyStr
  | [] => []
  | x :: xs => x :: (firstOccurrenceDedup xs).filter (fun y => y ≠ x)

/-- _track_custom_sql_ids (lines 229-239): for a ColumnField, record each
column's underlying table id when present. -/
def _track_custom_sql_ids (ids : List PyStr) (field : DatasourceFieldNode) : List PyStr :=
  if field.typename.getD [] = ("ColumnField").toList then
    (field.columns.getD []).foldl
      (fun acc col =>
        match col.tableId with
        | some tid => recordId acc tid
        | none => acc)
      ids
  else ids

/-- _get_schema_metadata_for_embedded_datasource (lines 432-473): walk the
datasource fields, tracking custom SQL ids and accumulating schema fields;
return None when no fields accumulated, together with the updated custom
SQL id list. -/
def _get_schema_metadata_for_embedded_datasource (ftm : List (PyStr × SchemaTypeTag)) (datasource_fields : List DatasourceFieldNode) (csql_ids : List PyStr) : Option SchemaMetadata × List PyStr :=
  let r := datasource_fields.foldl
    (fun (acc : List SchemaField × List PyStr) field =>
      (acc.1 ++ [mkEmbeddedSchemaField ftm field], _track_custom_sql_ids acc.2 field))
    ([], csql_ids)
  ( if r.1.isEmpty then none
    else some { schemaName := ("test").toList, platform := dataPlatformUrn,
                version := 0, fields := r.1, hash := [] },
    r.2 )

/- Ownership (C5). -/

/-- Modelled from the spec: builder.make_user_urn is defined in
datahub.emitter.mce_builder, which is not part of this tree; the spec
requires a URN derived deterministically from the source identifier. -/
def make_user_urn (username : PyStr) : PyStr :=
  ("urn:li:corpuser:").toList ++ username

/-- The ownership type used by the source (line 896). -/
inductive OwnershipType
  | DATAOWNER
deriving DecidableEq

/-- OwnerClass (lines 894-897); the source's keyword `type` is rendered
as `otype`. -/
structure OwnerRecord where
  owner : PyStr
  otype : OwnershipType
deriving DecidableEq

/-- OwnershipClass (lines 892-899). -/
structure OwnershipClass where
  owners : List OwnerRecord
deriving DecidableEq

/-- The ownership aspect built when one is emitted (lines 891-900). -/
def ownership_for (user : PyStr) : OwnershipClass :=
  { owners := [{ owner := make_user_urn user, otype := OwnershipType.DATAOWNER }] }

/-- _get_ownership (lines 888-902): an aspect is returned exactly when the
ingest_owner flag is truthy and the user string is truthy (non-empty);
otherwise None. -/
def _get_ownership (ingest_owner : Option Bool) (user : PyStr) : Option OwnershipClass :=
  if truthyOptBool ingest_owner && !user.isEmpty then some (ownership_for user) else none

/- Upstream table lineage (C6) and the upstream table record (C7). -/

/-- Modelled from the spec: make_table_urn lives in tableau_common, which
is not under this tree; the spec requires a URN derived deterministically
from environment, database, connection type, schema and table name, so the
arguments are kept as the URN value itself. -/
structure TableUrn where
  env : PyStr
  upstreamDb : PyStr
  connectionType : PyStr
  tableSchema : PyStr
  tableName : PyStr
deriving DecidableEq

/-- Modelled from the spec: deterministic URN construction (see TableUrn). -/
def make_table_urn (env db connectionType schemaName name : PyStr) : TableUrn :=
  { env := env, upstreamDb := db, connectionType := connectionType,
    tableSchema := schemaName, tableName := name }

/-- Python `database in map` / `map[database]` on the default_schema_map
dictionary, as first-match lookup over unique keys. -/
def schemaMapLookup : List (PyStr × PyStr) → PyStr → Option PyStr
  | [], _ => none
  | (k, v) :: rest, d => if k = d then some v else schemaMapLookup rest d

/-- _get_schema (lines 865-871): the provided schema, or the configured
default for the database when the provided schema is empty and the
database has a mapping. -/
def _get_schema (default_schema_map : List (PyStr × PyStr)) (schema_provided database : PyStr) : PyStr :=
  if schema_provided.isEmpty then
    match schemaMapLookup default_schema_map database with
    | some s => s
    | none => schema_provided
  else schema_provided

/-- DatasetLineageTypeClass.TRANSFORMED (line 265). -/
inductive DatasetLineageType
  | TRANSFORMED
deriving DecidableEq

/-- UpstreamClass (lines 263-266); the source's keyword `type` is rendered
as `ltype`. -/
structure UpstreamClass where
  dataset : TableUrn
  ltype : DatasetLineageType
deriving DecidableEq

/-- The upstream_tables attribute (line 113): a Python dict from table URN
to (columns, browse-path string), modelled as an association list; Python
dict assignment overwrites in place when the key exists and appends
otherwise, preserving first-insertion order. -/
abbrev UpstreamMap := List (TableUrn × (List TableColumnNode × PyStr))

/-- Python `self.upstream_tables[table_urn] = (columns, table_path)`. -/
def upstreamTablesInsert (m : UpstreamMap) (k : TableUrn) (v : List TableColumnNode × PyStr) : UpstreamMap :=
  if m.any (fun kv => kv.1 = k) then
    m.map (fun kv => if kv.1 = k then (k, v) else kv)
  else m ++ [(k, v)]

/-- Line 246: the name of the first upstream database if any, else empty. -/
def first_upstream_db (ds : DatasourceNode) : PyStr :=
  match ds.upstreamDatabases.getD [] with
  | [] => []
  | d :: _ => d.name.getD []

/-- The table URN built at lines 254-261. -/
def upstream_table_urn (cfg : TableauConfigModel) (upstream_db : PyStr) (t : UpstreamTableNode) : TableUrn :=
  make_table_urn cfg.env upstream_db (t.connectionType.getD [])
    (_get_schema cfg.default_schema_map (t.schema.getD []) upstream_db)
    (t.name.getD [])

/-- The display path stored for an upstream table (line 268). -/
def upstream_table_path (project : PyStr) (ds : DatasourceNode) (t : UpstreamTableNode) : PyStr :=
  replaceSlash project ++ ('/' :: ds.name.getD []) ++ ('/' :: t.name.getD [])

/-- _create_upstream_table_lineage (lines 241-273): walk the datasource's
upstream tables; outside the custom SQL context a table whose columns key
is missing or empty is skipped entirely; otherwise a lineage edge is
appended and the table is recorded in the upstream table map. -/
def create_upstream_table_lineage (cfg : TableauConfigModel) (st : UpstreamMap) (ds : DatasourceNode) (project : PyStr) (is_custom_sql : Bool) : List UpstreamClass × UpstreamMap :=
  (ds.upstreamTables.getD []).foldl
    (fun (acc : List UpstreamClass × UpstreamMap) t =>
      if !is_custom_sql && (t.columns.getD []).isEmpty then acc
      else
        let urn := upstream_table_urn cfg (first_upstream_db ds) t
        ( acc.1 ++ [{ dataset := urn, ltype := DatasetLineageType.TRANSFORMED }],
          upstreamTablesInsert acc.2 urn (t.columns.getD [], upstream_table_path project ds t) ))
    ([], st)

/-- The schema field built for one upstream table column in
emit_upstream_tables (lines 648-657). -/
def mkUpstreamColumnField (ftm : List (PyStr × SchemaTypeTag)) (c : TableColumnNode) : SchemaField :=
  let nativeDataType := c.remoteType.getD unknownNativeType
  { fieldPath := c.name
    ftype := fieldTypeMappingGet ftm nativeDataType
    nativeDataType := nativeDataType
    description := [] }

/-- A placeholder dataset snapshot emitted for one accumulated upstream
table (lines 636-672). -/
structure UpstreamPlaceholderSnapshot where
  urn : TableUrn
  browsePath : PyStr
  fields : List SchemaField
deriving DecidableEq

/-- emit_upstream_tables (lines 635-672): one placeholder snapshot per
entry of the upstream table map, in map order. -/
def emit_upstream_tables (cfg : TableauConfigModel) (ftm : List (PyStr × SchemaTypeTag)) (m : UpstreamMap) : List UpstreamPlaceholderSnapshot :=
  m.map (fun kv =>
    { urn := kv.1
      browsePath := ('/' :: strToLower cfg.env) ++ ('/' :: tableauPlatform) ++ ('/' :: kv.2.2)
      fields := kv.2.1.map (mkUpstreamColumnField ftm) })

/-- The effect of emit_datasource (lines 504-596) on the upstream table
map when called for one embedded datasource of a workbook: the project is
the workbook's project name with slashes replaced (lines 507-515), and
the lineage walk runs only when the upstreamTables key is present
(line 566). -/
def emit_datasource_upstream_state (cfg : TableauConfigModel) (st : UpstreamMap) (wb : WorkbookNode) (ds : DatasourceNode) : UpstreamMap :=
  let project := replaceSlash (wb.projectName.getD [])
  match ds.upstreamTables with
  | some _ => (create_upstream_table_lineage cfg st ds project false).2
  | none => st

/-- The per-workbook body of emit_workbooks (lines 222-227) projected onto
the upstream table record and the placeholder snapshots it yields: for
each workbook node the embedded datasources are mapped (populating the
record), and then emit_upstream_tables is invoked on the record as it
stands. Container, chart and dashboard emissions neither read nor write
the record and are outside this projection. -/
def emit_workbooks_upstream_view (cfg : TableauConfigModel) (ftm : List (PyStr × SchemaTypeTag)) (st : UpstreamMap) : List WorkbookNode → UpstreamMap × List UpstreamPlaceholderSnapshot
  | [] => (st, [])
  | wb :: rest =>
    let st1 := (wb.embeddedDatasources.getD []).foldl
      (fun s ds => emit_datasource_upstream_state cfg s wb ds) st
    let tail := emit_workbooks_upstream_view cfg ftm st1 rest
    (tail.1, emit_upstream_tables cfg ftm st1 ++ tail.2)

/-- Specification-side definition for C7: the state of the upstream table
record after each successive workbook. -/
def workbook_states (cfg : TableauConfigModel) (st : UpstreamMap) : List WorkbookNode → List UpstreamMap
  | [] => []
  | wb :: rest =>
    let st1 := (wb.embeddedDatasources.getD []).foldl
      (fun s ds => emit_datasource_upstream_state cfg s wb ds) st
    st1 :: workbook_states cfg st1 rest

/- Browse paths (C2). Each builder returns the list of components that the
source's f-string interpolates between slashes, in order. -/

/-- The datasource browse path of emit_datasource (lines 511-535):
env.lower, platform, project (slash-replaced at line 512), the raw
datasource name (line 532), and datasource_name built at line 517 as the
f-string of the raw name, a dot and the id. -/
def datasource_browse_path_components (cfg : TableauConfigModel) (datasource_info_project : Option PyStr) (ds : DatasourceNode) : List PyStr :=
  let project := replaceSlash (datasource_info_project.getD [])
  let datasource_id := ds.id.getD []
  let datasource_name := fstrOpt ds.name ++ ('.' :: datasource_id)
  [strToLower cfg.env, tableauPlatform, project, ds.name.getD [], datasource_name]

/-- The chart browse path of emit_sheets_as_charts (lines 731-737):
platform, the workbook's project name slash-replaced, the raw workbook
name, and the sheet name slash-replaced. -/
def chart_browse_path_components (wb : WorkbookNode) (sheet : SheetNode) : List PyStr :=
  [ tableauPlatform,
    replaceSlash (wb.projectName.getD []),
    wb.name.getD [],
    replaceSlash (sheet.name.getD []) ]

/-- The dashboard browse path of emit_dashboards (lines 825, 841-847):
platform, the workbook's project name and name slash-replaced, and the
title, which is the dashboard name slash-replaced (with Python `or ""`
applied, line 825). -/
def dashboard_browse_path_components (wb : WorkbookNode) (dash : DashboardNode) : List PyStr :=
  let title := orEmpty (replaceSlash (dash.name.getD []))
  [ tableauPlatform,
    replaceSlash (wb.projectName.getD []),
    replaceSlash (wb.name.getD []),
    title ]

/- Authentication (C8). -/

/-- The two authentication objects the source can construct
(lines 139-147). -/
inductive AuthenticationChoice
  | tableauAuth (username password site_id : PyStr)
  | personalAccessTokenAuth (token_name token_value site : PyStr)
deriving DecidableEq

/-- The ConfigurationError message raised at lines 149-151. -/
def missingCredentialsMessage : PyStr :=
  ("Tableau Source: Either username/password or token_name/token_value must be set").toList

/-- The credential-resolution prefix of _authenticate (lines 135-151):
username/password is checked first, then token_name/token_value; if
neither pair is completely truthy, a ConfigurationError is raised before
any server object is created. -/
def _authenticate_resolve (c : TableauConfigModel) : Except PyStr AuthenticationChoice :=
  if truthyOptStr c.username && truthyOptStr c.password then
    Except.ok (AuthenticationChoice.tableauAuth (c.username.getD []) (c.password.getD []) c.site)
  else if truthyOptStr c.token_name && truthyOptStr c.token_value then
    Except.ok (AuthenticationChoice.personalAccessTokenAuth (c.token_name.getD []) (c.token_value.getD []) c.site)
  else
    Except.error missingCredentialsMessage

/-- The sign_in calls _authenticate issues (lines 153-155): exactly one,
with the resolved authentication, and none when resolution raised. -/
def _authenticate_sign_in_calls (c : TableauConfigModel) : List AuthenticationChoice :=
  match _authenticate_resolve c with
  | Except.ok a => [a]
  | Except.error _ => []

/- Harvest orchestration (C9). get_workunits (lines 909-920) runs the
three phases in order inside a single try block whose only handler
catches MetadataQueryException and records one failure. The phases'
bodies are generators whose outputs and possible MetadataQueryException
(raised inside tableau_common's query_metadata, which is not under this
tree) are modelled as outcome data: outputs already yielded before the
exception are delivered to the caller. -/

/-- One phase's behaviour: the outputs it yields, and the
MetadataQueryException message it raises after them, if any. -/
structure PhaseRun where
  outputs : List PyStr
  exc : Option PyStr
deriving DecidableEq

/-- One harvest run's phase behaviours, together with the identifier lists
accumulated by the workbook phase, which guard phases 3 and 4
(lines 912, 914). -/
structure HarvestBehavior where
  workbooksRun : PhaseRun
  datasourceIdsUsed : List PyStr
  customSqlIdsUsed : List PyStr
  publishedRun : PhaseRun
  customSqlRun : PhaseRun
deriving DecidableEq

/-- A failure record as produced by report_failure. -/
structure FailureRecord where
  key : PyStr
  reason : PyStr
deriving DecidableEq

/-- The single failure recorded by the except handler (lines 916-920). -/
def metadataFailure (msg : PyStr) : FailureRecord :=
  { key := ("tableau-metadata").toList
    reason := ("Unable to retrieve metadata from tableau. Information: ").toList ++ msg }

/-- The custom SQL phase step of get_workunits (lines 914-915): run only
when the tracked custom SQL id list is non-empty; an exception there is
caught by the top-level handler. -/
def customSqlTail (b : HarvestBehavior) (acc : List PyStr) : List PyStr × List FailureRecord :=
  if b.customSqlIdsUsed.isEmpty then (acc, [])
  else
    match b.customSqlRun.exc with
    | some e => (acc ++ b.customSqlRun.outputs, [metadataFailure e])
    | none => (acc ++ b.customSqlRun.outputs, [])

/-- The published datasource phase step of get_workunits (lines 912-913):
run only when the tracked datasource id list is non-empty; an exception
there skips the custom SQL phase and is caught by the top-level handler. -/
def publishedTail (b : HarvestBehavior) (acc : List PyStr) : List PyStr × List FailureRecord :=
  if b.datasourceIdsUsed.isEmpty then customSqlTail b acc
  else
    match b.publishedRun.exc with
    | some e => (acc ++ b.publishedRun.outputs, [metadataFailure e])
    | none => customSqlTail b (acc ++ b.publishedRun.outputs)

/-- get_workunits (lines 909-920): the workbook phase runs first; a
MetadataQueryException anywhere aborts the remaining phases, is caught by
the single top-level handler, recorded as one failure, and never
re-raised: the function returns the yielded outputs and the report's
failure list. -/
def get_workunits (b : HarvestBehavior) : List PyStr × List FailureRecord :=
  match b.workbooksRun.exc with
  | some e => (b.workbooksRun.outputs, [metadataFailure e])
  | none => publishedTail b b.workbooksRun.outputs

/- Concrete inputs used to evaluate the verified properties. -/

/-- A concrete configuration with environment PROD and defaults of the
TableauConfig model. -/
def sampleConfig : TableauConfigModel :=
  { connect_uri := ("https://t.example").toList
    username := none
    password := none
    token_name := none
    token_value := none
    site := []
    projects := some [("default").toList]
    default_schema_map := []
    ingest_tags := some false
    ingest_owner := some false
    workbooks_page_size := 10
    env := ("PROD").toList }

/-- A concrete upstream table whose columns key is absent. -/
def sampleTableNoColumns : UpstreamTableNode :=
  { name := some ("t").toList
    schema := some ("s").toList
    connectionType := some ("postgres").toList
    columns := none }

/-- A concrete datasource holding only sampleTableNoColumns. -/
def sampleDatasourceNoColumns : DatasourceNode :=
  { id := some ("d0").toList
    name := some ("ds0").toList
    typename := none
    projectName := none
    upstreamDatabases := some [{ name := some ("db").toList }]
    upstreamTables := some [sampleTableNoColumns]
    fields := none }

/-- A concrete upstream table with one column. -/
def sampleTableWithColumn : UpstreamTableNode :=
  { name := some ("t1").toList
    schema := some ("s").toList
    connectionType := some ("postgres").toList
    columns := some [{ name := ("c").toList, remoteType := none }] }

/-- A concrete embedded datasource referencing sampleTableWithColumn. -/
def sampleDatasourceWithTable : DatasourceNode :=
  { id := some ("d1").toList
    name := some ("ds1").toList
    typename := some ("EmbeddedDatasource").toList
    projectName := none
    upstreamDatabases := some [{ name := some ("db").toList }]
    upstreamTables := some [sampleTableWithColumn]
    fields := none }

/-- A concrete workbook whose one embedded datasource records one
upstream table. -/
def sampleWorkbookOne : WorkbookNode :=
  { id := ("w1").toList
    name := some ("wb1").toList
    projectName := some ("p").toList
    embeddedDatasources := some [sampleDatasourceWithTable] }

/-- A concrete second workbook with no embedded datasources. -/
def sampleWorkbookTwo : WorkbookNode :=
  { id := ("w2").toList
    name := some ("wb2").toList
    projectName := some ("p").toList
    embeddedDatasources := some [] }

/-- The URN under which sampleTableWithColumn is recorded. -/
def sampleTableUrn : TableUrn :=
  upstream_table_urn sampleConfig ("db").toList sampleTableWithColumn

/-- A concrete datasource whose name contains a literal slash. -/
def sampleSlashDatasource : DatasourceNode :=
  { id := some ("1").toList
    name := some ("a/b").toList
    typename := none
    projectName := some ("p").toList
    upstreamDatabases := none
    upstreamTables := none
    fields := none }

/-- A concrete type-mapping table with one known native type. -/
def sampleTypeTable : List (PyStr × SchemaTypeTag) :=
  [(("INTEGER").toList, SchemaTypeTag.otherTypeClass ("NumberType").toList)]

/-- A concrete custom SQL column whose native type is not in
sampleTypeTable. -/
def sampleUnknownColumn : CSqlColumnNode :=
  { name := some ("c").toList
    remoteType := some ("foo").toList
    description := none }

/-- A concrete configuration with no credential pair set. -/
def sampleConfigNoCreds : TableauConfigModel :=
  { sampleConfig with username := none, password := none, token_name := none, token_value := none }

/-- A concrete configuration with both credential pairs set. -/
def sampleConfigBothPairs : TableauConfigModel :=
  { sampleConfig with
      username := some ("u").toList, password := some ("pw").toList,
      token_name := some ("tn").toList, token_value := some ("tv").toList }

/-- A concrete harvest behaviour whose workbook phase raises a
MetadataQueryException after yielding one output. -/
def sampleFailingHarvest : HarvestBehavior :=
  { workbooksRun := { outputs := [("o1").toList], exc := some ("boom").toList }
    datasourceIdsUsed := [("d1").toList]
    customSqlIdsUsed := []
    publishedRun := { outputs := [("o2").toList], exc := none }
    customSqlRun := { outputs := [("o3").toList], exc := none } }

/-- A concrete harvest behaviour whose custom SQL phase raises a
MetadataQueryException after the workbook and published phases completed
with both identifier lists non-empty, as happens whenever custom SQL ids
were recorded: emit_datasource records the datasource id unconditionally
(lines 521-522) while the fields walk records custom SQL ids. -/
def sampleCsqlFailingHarvest : HarvestBehavior :=
  { workbooksRun := { outputs := [("o1").toList], exc := none }
    datasourceIdsUsed := [("d1").toList]
    customSqlIdsUsed := [("c1").toList]
    publishedRun := { outputs := [("o2").toList], exc := none }
    customSqlRun := { outputs := [("o3").toList], exc := some ("boom2").toList } }

/- Helper lemmas. -/

/-- Once a fetch reports no next page, the pagination loop stops for any
remaining fuel. -/
theorem workbook_page_loop_false (total page_size fuel current : Nat) :
    workbook_page_loop total page_size fuel current false = [] := by
  cases fuel <;> simp [workbook_page_loop]

/-- No character of a slash-replaced string is a slash. -/
theorem not_slash_mem_replaceSlash (s : PyStr) : '/' ∉ replaceSlash s := by
  intro h
  rw [replaceSlash, List.mem_map] at h
  obtain ⟨a, _, ha⟩ := h
  by_cases hc : a = '/' <;> simp [hc, REPLACE_SLASH_CHAR] at ha

/-- No character of orEmpty of a slash-replaced string is a slash. -/
theorem not_slash_mem_orEmpty_replaceSlash (s : PyStr) : '/' ∉ orEmpty (replaceSlash s) := by
  rw [orEmpty]
  split
  · simp
  · exact not_slash_mem_replaceSlash s

/- C1: workbook pagination. -/

/-- C1: with totalCount 25 and page size 10, emit_workbooks issues the
probing fetch (0,0) and then exactly the fetches (0,10), (10,10), (20,5);
hasNextPage is reported false only by the third non-probing fetch; and a
run with zero total results sees a false hasNextPage already on the probe
and terminates immediately. The fuel bound is any value at least 3. -/
theorem c1_workbook_pagination (fuel : Nat) (h : 3 ≤ fuel) :
    emit_workbooks_fetches 25 10 fuel =
      [(0, 0, true), (0, 10, true), (10, 10, true), (20, 5, false)] ∧
    emit_workbooks_fetches 0 10 fuel = [(0, 0, false)] := by
  obtain ⟨k, rfl⟩ : ∃ k, fuel = k + 3 := ⟨fuel - 3, by omega⟩
  constructor
  · simp [emit_workbooks_fetches, workbook_page_loop, serverHasNextPage,
      workbook_page_loop_false]
  · simp [emit_workbooks_fetches, serverHasNextPage, workbook_page_loop_false]

/-- Witness for C1 at the concrete fuel bound 3. -/
theorem c1_workbook_pagination_witness :
    emit_workbooks_fetches 25 10 3 =
      [(0, 0, true), (0, 10, true), (10, 10, true), (20, 5, false)] ∧
    emit_workbooks_fetches 0 10 3 = [(0, 0, false)] :=
  c1_workbook_pagination 3 (by decide)

/- C2: slash replacement in browse paths. -/

/-- Counterexample for C2: for a datasource named "a/b" (project "p",
id "1"), the datasource browse path of emit_datasource keeps the literal
slash inside the datasource-name components: the fourth component is the
unreplaced name "a/b", and the assembled path contains 7 slashes although
it has only 5 components, so two slashes sit inside name components. -/
theorem c2_counterexample :
    (datasource_browse_path_components sampleConfig (some ("p").toList) sampleSlashDatasource).getD 3 []
      = ("a/b").toList ∧
    '/' ∈ (datasource_browse_path_components sampleConfig (some ("p").toList) sampleSlashDatasource).getD 3 [] ∧
    (datasource_browse_path_components sampleConfig (some ("p").toList) sampleSlashDatasource).length = 5 ∧
    (assemble_browse_path (datasource_browse_path_components sampleConfig (some ("p").toList) sampleSlashDatasource)).count '/' = 7 := by
  refine ⟨by decide, by decide, by decide, by decide⟩

/-- C2 as amended: the components to which the source applies the slash
replacement are slash-free for every input: the project component of the
datasource browse path, the project and sheet-name components of the chart
browse path, and the project, workbook-name and title components of the
dashboard browse path. The datasource-name components of the datasource
path and the workbook-name component of the chart path are interpolated
verbatim and may retain a literal slash, as the counterexample shows. -/
theorem c2_amended_slash_replacement (cfg : TableauConfigModel) (projOpt : Option PyStr)
    (ds : DatasourceNode) (wb : WorkbookNode) (sheet : SheetNode) (dash : DashboardNode) :
    '/' ∉ (datasource_browse_path_components cfg projOpt ds).getD 2 [] ∧
    '/' ∉ (chart_browse_path_components wb sheet).getD 1 [] ∧
    '/' ∉ (chart_browse_path_components wb sheet).getD 3 [] ∧
    '/' ∉ (dashboard_browse_path_components wb dash).getD 1 [] ∧
    '/' ∉ (dashboard_browse_path_components wb dash).getD 2 [] ∧
    '/' ∉ (dashboard_browse_path_components wb dash).getD 3 [] := by
  refine ⟨?_, ?_, ?_, ?_, ?_, ?_⟩ <;>
    simp only [datasource_browse_path_components, chart_browse_path_components,
      dashboard_browse_path_components, List.getD_cons_succ, List.getD_cons_zero] <;>
    first
      | exact not_slash_mem_replaceSlash _
      | exact not_slash_mem_orEmpty_replaceSlash _

/- C3: unknown native types map to the null marker. -/

/-- C3: for every type-mapping table (in particular the fixed
FIELD_TYPE_MAPPING) and every native type string that is not a key of the
table, the dict.get with default yields NullTypeClass, and each of the
three schema-field constructions (custom SQL column, embedded datasource
field, upstream table column) therefore produces a field whose type is the
null marker; the lookup is a total function and never raises. -/
theorem c3_unknown_type_null (ftm : List (PyStr × SchemaTypeTag)) :
    (∀ native : PyStr, native ∉ ftm.map Prod.fst →
       fieldTypeMappingGet ftm native = SchemaTypeTag.nullTypeClass) ∧
    (∀ col : CSqlColumnNode, col.remoteType.getD unknownNativeType ∉ ftm.map Prod.fst →
       (mkCustomSqlSchemaField ftm col).ftype = SchemaTypeTag.nullTypeClass) ∧
    (∀ fld : DatasourceFieldNode, fld.dataType.getD unknownNativeType ∉ ftm.map Prod.fst →
       (mkEmbeddedSchemaField ftm fld).ftype = SchemaTypeTag.nullTypeClass) ∧
    (∀ c : TableColumnNode, c.remoteType.getD unknownNativeType ∉ ftm.map Prod.fst →
       (mkUpstreamColumnField ftm c).ftype = SchemaTypeTag.nullTypeClass) := by
  have base : ∀ (t : List (PyStr × SchemaTypeTag)) (native : PyStr),
      native ∉ t.map Prod.fst → fieldTypeMappingGet t native = SchemaTypeTag.nullTypeClass := by
    intro t
    induction t with
    | nil => intro native _; rfl
    | cons kv rest ih =>
      intro native h
      simp only [List.map_cons, List.mem_cons, not_or] at h
      obtain ⟨h1, h2⟩ := h
      cases kv with
      | mk k v =>
        simp only [fieldTypeMappingGet]
        rw [if_neg (fun hk => h1 hk.symm)]
        exact ih native h2
  refine ⟨base ftm, fun col h => base ftm _ h, fun fld h => base ftm _ h,
    fun c h => base ftm _ h⟩

/-- Witness for C3: the native type "foo" is not a key of sampleTypeTable,
and the custom SQL field built from sampleUnknownColumn has the null type. -/
theorem c3_unknown_type_null_witness :
    fieldTypeMappingGet sampleTypeTable (("foo").toList) = SchemaTypeTag.nullTypeClass ∧
    (mkCustomSqlSchemaField sampleTypeTable sampleUnknownColumn).ftype = SchemaTypeTag.nullTypeClass :=
  ⟨(c3_unknown_type_null sampleTypeTable).1 (("foo").toList) (by decide),
   (c3_unknown_type_null sampleTypeTable).2.1 sampleUnknownColumn (by decide)⟩

/- C4: the reference tracker. -/

/-- Filtering out membership in acc ++ [x] is filtering out x and then
membership in acc. -/
theorem filter_not_mem_append_singleton (acc : List PyStr) (x : PyStr) (l : List PyStr) :
    l.filter (fun y => y ∉ acc ++ [x]) = (l.filter (fun y => y ≠ x)).filter (fun y => y ∉ acc) := by
  induction l with
  | nil => rfl
  | cons a t ih =>
    by_cases ha : a = x
    · subst ha; simp [List.filter_cons, List.mem_append, ih]
    · by_cases h2 : a ∈ acc <;> simp [List.filter_cons, List.mem_append, ha, h2, ih]

/-- When x is already in acc, additionally filtering out x changes
nothing about filtering out membership in acc. -/
theorem filter_not_mem_of_mem (acc : List PyStr) (x : PyStr) (hx : x ∈ acc) (l : List PyStr) :
    l.filter (fun y => y ∉ acc) = (l.filter (fun y => y ≠ x)).filter (fun y => y ∉ acc) := by
  rw [List.filter_filter]
  apply List.filter_congr
  intro a _
  by_cases ha : a = x
  · subst ha; simp [hx]
  · simp [ha]

/-- A tracker fold from any accumulator appends exactly the
first-occurrence dedup of the recorded identifiers, minus those already
tracked. -/
theorem foldl_recordId_eq (ops : List PyStr) :
    ∀ acc, ops.foldl recordId acc = acc ++ (firstOccurrenceDedup ops).filter (fun y => y ∉ acc) := by
  induction ops with
  | nil => intro acc; simp [firstOccurrenceDedup]
  | cons x xs ih =>
    intro acc
    simp only [List.foldl_cons, firstOccurrenceDedup]
    rw [ih]
    by_cases hx : x ∈ acc
    · have hr : recordId acc x = acc := by simp [recordId, hx]
      rw [hr]
      congr 1
      calc (firstOccurrenceDedup xs).filter (fun y => y ∉ acc)
          = ((firstOccurrenceDedup xs).filter (fun y => y ≠ x)).filter (fun y => y ∉ acc) :=
            filter_not_mem_of_mem acc x hx _
        _ = (x :: (firstOccurrenceDedup xs).filter (fun y => y ≠ x)).filter (fun y => y ∉ acc) := by
            rw [List.filter_cons]
            simp [hx]
    · have hr : recordId acc x = acc ++ [x] := by simp [recordId, hx]
      rw [hr, filter_not_mem_append_singleton]
      simp [List.filter_cons, hx, List.append_assoc]

/-- The first-occurrence dedup has no duplicates. -/
theorem firstOccurrenceDedup_nodup (ops : List PyStr) : (firstOccurrenceDedup ops).Nodup := by
  induction ops with
  | nil => simp [firstOccurrenceDedup]
  | cons x xs ih =>
    simp only [firstOccurrenceDedup, List.nodup_cons]
    refine ⟨?_, List.Nodup.filter _ ih⟩
    intro hmem
    rw [List.mem_filter] at hmem
    simp at hmem

/-- C4: the tracking operation used for both identifier lists is
idempotent; a whole tracker run from the empty initial state equals the
first-occurrence dedup of the recorded identifiers, so insertion order of
first occurrences is preserved, and the tracked list never contains
duplicates no matter how often an identifier is recorded. -/
theorem c4_reference_tracker (l : List PyStr) (x : PyStr) (ops : List PyStr) :
    recordId (recordId l x) x = recordId l x ∧
    trackIdentifiers ops = firstOccurrenceDedup ops ∧
    (trackIdentifiers ops).Nodup := by
  have htrack : trackIdentifiers ops = firstOccurrenceDedup ops := by
    rw [trackIdentifiers, foldl_recordId_eq]
    simp
  refine ⟨?_, htrack, ?_⟩
  · by_cases h : x ∈ l
    · simp [recordId, h]
    · simp [recordId, h]
  · rw [htrack]
    exact firstOccurrenceDedup_nodup ops

/- C5: ownership aspect. -/

/-- C5: an ownership aspect is returned if and only if the ingest_owner
flag is truthy and the creator string is non-empty; it is the populated
aspect built from the creator in that case, absent when the flag is off
even with a creator present, and absent when the creator is empty even
with the flag on. -/
theorem c5_ownership (flag : Option Bool) (user : PyStr) :
    ((_get_ownership flag user).isSome = true ↔ (truthyOptBool flag = true ∧ user ≠ [])) ∧
    (truthyOptBool flag = true → user ≠ [] → _get_ownership flag user = some (ownership_for user)) ∧
    (truthyOptBool flag = false → _get_ownership flag user = none) ∧
    (user = [] → _get_ownership flag user = none) := by
  by_cases hf : truthyOptBool flag = true
  · by_cases hu : user = []
    · subst hu
      simp [_get_ownership, hf]
    · have hne : user.isEmpty = false := by
        cases user with
        | nil => exact absurd rfl hu
        | cons a t => rfl
      simp [_get_ownership, hf, hne, hu]
  · have hf0 : truthyOptBool flag = false := by
      cases h : truthyOptBool flag
      · rfl
      · exact absurd h hf
    simp [_get_ownership, hf0]

/-- Witness for C5 at concrete flag/creator combinations. -/
theorem c5_ownership_witness :
    _get_ownership (some true) (("alice").toList) = some (ownership_for (("alice").toList)) ∧
    _get_ownership (some false) (("alice").toList) = none ∧
    _get_ownership (some true) [] = none :=
  ⟨(c5_ownership (some true) (("alice").toList)).2.1 (by decide) (by decide),
   (c5_ownership (some false) (("alice").toList)).2.2.1 (by decide),
   (c5_ownership (some true) []).2.2.2 rfl⟩

/- C6: the column-skip asymmetry of upstream table lineage. -/

/-- C6: mapping a datasource with a single upstream table, in the embedded
context (is_custom_sql false) a table with missing or empty column
metadata yields no lineage edge and leaves the upstream table record
unchanged, while in the custom SQL context (is_custom_sql true) the same
table is never skipped: exactly one lineage edge is produced and the
table is recorded, regardless of its column metadata. -/
theorem c6_upstream_skip_policy (cfg : TableauConfigModel) (st : UpstreamMap)
    (ds : DatasourceNode) (project : PyStr) (t : UpstreamTableNode)
    (hts : ds.upstreamTables = some [t]) :
    ((t.columns.getD []).isEmpty = true →
       create_upstream_table_lineage cfg st ds project false = ([], st)) ∧
    ((create_upstream_table_lineage cfg st ds project true).1 =
       [{ dataset := upstream_table_urn cfg (first_upstream_db ds) t,
          ltype := DatasetLineageType.TRANSFORMED }] ∧
     (create_upstream_table_lineage cfg st ds project true).2 =
       upstreamTablesInsert st (upstream_table_urn cfg (first_upstream_db ds) t)
         (t.columns.getD [], upstream_table_path project ds t)) := by
  constructor
  · intro h
    rw [List.isEmpty_iff] at h
    simp [create_upstream_table_lineage, hts, h]
  · constructor <;> simp [create_upstream_table_lineage, hts]

/-- Witness for C6: the concrete no-columns table is skipped in the
embedded context and produces one edge in the custom SQL context. -/
theorem c6_upstream_skip_policy_witness :
    create_upstream_table_lineage sampleConfig [] sampleDatasourceNoColumns (("p").toList) false
      = ([], []) ∧
    (create_upstream_table_lineage sampleConfig [] sampleDatasourceNoColumns (("p").toList) true).1.length
      = 1 := by
  have h := c6_upstream_skip_policy sampleConfig [] sampleDatasourceNoColumns (("p").toList)
    sampleTableNoColumns rfl
  exact ⟨h.1 rfl, by rw [h.2.1]; rfl⟩

/- C7: the upstream table record and placeholder emission. -/

/-- Counterexample for C7: a harvest whose workbook loop processes two
workbooks, the first recording one upstream table and the second
recording nothing, emits the placeholder snapshot for that table twice —
once after each workbook — because emit_upstream_tables runs inside the
per-workbook loop (source line 227) and the record is never cleared; the
record is therefore not consumed exactly once at the end of the harvest,
and a placeholder entity is emitted more than once per harvest. -/
theorem c7_counterexample :
    ((emit_workbooks_upstream_view sampleConfig [] []
        [sampleWorkbookOne, sampleWorkbookTwo]).2.map (fun s => s.urn))
      = [sampleTableUrn, sampleTableUrn] ∧
    ((emit_workbooks_upstream_view sampleConfig [] []
        [sampleWorkbookOne, sampleWorkbookTwo]).2.map (fun s => s.urn)).count sampleTableUrn
      = 2 := by
  refine ⟨by decide, by decide⟩

/-- C7 as amended: the upstream table record is populated incrementally
while mapping embedded datasources, and emit_upstream_tables is invoked
once per workbook, inside the workbook loop, each time emitting one
placeholder snapshot per entry accumulated so far; since the record is
never cleared, the placeholders of a whole run are exactly the
concatenation, over successive workbooks, of one snapshot per entry of
the record as it stands after that workbook, so a table recorded at an
earlier workbook is re-emitted after every later workbook. -/
theorem c7_amended_per_workbook_emission (cfg : TableauConfigModel)
    (ftm : List (PyStr × SchemaTypeTag)) (st : UpstreamMap) (wbs : List WorkbookNode) :
    (emit_workbooks_upstream_view cfg ftm st wbs).2 =
      ((workbook_states cfg st wbs).map (emit_upstream_tables cfg ftm)).flatten := by
  induction wbs generalizing st with
  | nil => simp [emit_workbooks_upstream_view, workbook_states]
  | cons wb rest ih =>
    simp [emit_workbooks_upstream_view, workbook_states, ih]

/- C8: credential resolution. -/

/-- C8: when neither complete credential pair is truthy the resolution
step of _authenticate raises the ConfigurationError and no sign_in call
is made; when the username/password pair is truthy it is resolved first,
so with both pairs set the token pair is ignored and sign_in is called
exactly once with the username/password authentication. -/
theorem c8_credential_resolution (c : TableauConfigModel) :
    ((truthyOptStr c.username && truthyOptStr c.password) = false →
     (truthyOptStr c.token_name && truthyOptStr c.token_value) = false →
     _authenticate_resolve c = Except.error missingCredentialsMessage ∧
       _authenticate_sign_in_calls c = []) ∧
    ((truthyOptStr c.username && truthyOptStr c.password) = true →
     _authenticate_resolve c =
       Except.ok (AuthenticationChoice.tableauAuth (c.username.getD []) (c.password.getD []) c.site) ∧
     _authenticate_sign_in_calls c =
       [AuthenticationChoice.tableauAuth (c.username.getD []) (c.password.getD []) c.site]) := by
  constructor
  · intro h1 h2
    simp [_authenticate_resolve, _authenticate_sign_in_calls, h1, h2]
  · intro h1
    simp [_authenticate_resolve, _authenticate_sign_in_calls, h1]

/-- Witness for C8: a configuration with no credentials fails before any
sign_in call, and one with both pairs set signs in with username/password. -/
theorem c8_credential_resolution_witness :
    (_authenticate_resolve sampleConfigNoCreds = Except.error missingCredentialsMessage ∧
     _authenticate_sign_in_calls sampleConfigNoCreds = []) ∧
    _authenticate_resolve sampleConfigBothPairs =
      Except.ok (AuthenticationChoice.tableauAuth (("u").toList) (("pw").toList) []) :=
  ⟨(c8_credential_resolution sampleConfigNoCreds).1 (by decide) (by decide),
   ((c8_credential_resolution sampleConfigBothPairs).2 (by decide)).1⟩

/- C9: the single top-level exception handler. -/

/-- A non-nil list has isEmpty false. -/
theorem isEmpty_false_of_ne_nil {l : List PyStr} (h : l ≠ []) : l.isEmpty = false := by
  cases l with
  | nil => exact absurd rfl h
  | cons a t => rfl

/-- C9: a MetadataQueryException in any phase aborts the remaining phases
(their outputs never appear), is caught once by the top-level handler of
get_workunits and recorded as exactly one failure, with the outputs
yielded before the exception still delivered. The exception conjuncts
cover every configuration in which a phase that runs raises: the workbook
phase raises; the published phase runs and raises; the custom SQL phase
runs and raises with the published phase skipped; and the custom SQL
phase runs and raises after the published phase completed — the
configuration actually reachable when custom SQL ids were recorded, since
emit_datasource records datasource ids unconditionally (lines 521-522).
When no phase raises, the failure list is empty; in every case the
failure list has at most one entry and the function returns normally
instead of re-raising. The model consults each phase's behaviour at most
once, so nothing is retried. -/
theorem c9_metadata_exception_handling (b : HarvestBehavior) :
    (∀ e, b.workbooksRun.exc = some e →
       get_workunits b = (b.workbooksRun.outputs, [metadataFailure e])) ∧
    (∀ e, b.workbooksRun.exc = none → b.datasourceIdsUsed ≠ [] →
       b.publishedRun.exc = some e →
       get_workunits b = (b.workbooksRun.outputs ++ b.publishedRun.outputs, [metadataFailure e])) ∧
    (∀ e, b.workbooksRun.exc = none → b.datasourceIdsUsed = [] → b.customSqlIdsUsed ≠ [] →
       b.customSqlRun.exc = some e →
       get_workunits b = (b.workbooksRun.outputs ++ b.customSqlRun.outputs, [metadataFailure e])) ∧
    (∀ e, b.workbooksRun.exc = none → b.datasourceIdsUsed ≠ [] → b.publishedRun.exc = none →
       b.customSqlIdsUsed ≠ [] → b.customSqlRun.exc = some e →
       get_workunits b =
         (b.workbooksRun.outputs ++ b.publishedRun.outputs ++ b.customSqlRun.outputs,
          [metadataFailure e])) ∧
    (b.workbooksRun.exc = none → b.publishedRun.exc = none → b.customSqlRun.exc = none →
       (get_workunits b).2 = []) ∧
    (get_workunits b).2.length ≤ 1 := by
  refine ⟨?_, ?_, ?_, ?_, ?_, ?_⟩
  · intro e he
    simp [get_workunits, he]
  · intro e he hds hpe
    simp [get_workunits, publishedTail, he, hpe, isEmpty_false_of_ne_nil hds]
  · intro e he hds hcs hce
    simp [get_workunits, publishedTail, customSqlTail, he, hds, hce,
      isEmpty_false_of_ne_nil hcs]
  · intro e he hds hpe hcs hce
    simp [get_workunits, publishedTail, customSqlTail, he, hpe, hce,
      isEmpty_false_of_ne_nil hds, isEmpty_false_of_ne_nil hcs]
  · intro h1 h2 h3
    cases hd : b.datasourceIdsUsed.isEmpty <;> cases hc : b.customSqlIdsUsed.isEmpty <;>
      simp [get_workunits, publishedTail, customSqlTail, h1, h2, h3, hd, hc]
  · cases hw : b.workbooksRun.exc with
    | some e => simp [get_workunits, hw]
    | none =>
      cases hd : b.datasourceIdsUsed.isEmpty <;> cases hp : b.publishedRun.exc <;>
        cases hc : b.customSqlIdsUsed.isEmpty <;> cases hcs : b.customSqlRun.exc <;>
          simp [get_workunits, publishedTail, customSqlTail, hw, hd, hp, hc, hcs]

/-- Witness for C9 at two concrete runs: one whose workbook phase raises
after one output, yielding that output and exactly one failure record,
and one whose custom SQL phase raises after the workbook and published
phases completed with both identifier lists non-empty, yielding all prior
outputs and exactly one failure record. -/
theorem c9_metadata_exception_handling_witness :
    get_workunits sampleFailingHarvest
      = ([("o1").toList], [metadataFailure (("boom").toList)]) ∧
    get_workunits sampleCsqlFailingHarvest
      = ([("o1").toList] ++ [("o2").toList] ++ [("o3").toList],
         [metadataFailure (("boom2").toList)]) :=
  ⟨(c9_metadata_exception_handling sampleFailingHarvest).1 (("boom").toList) rfl,
   (c9_metadata_exception_handling sampleCsqlFailingHarvest).2.2.2.1 (("boom2").toList)
     rfl (by decide) rfl (by decide) rfl⟩

/- C10: the custom SQL schema keeps only the last column. -/

/-- A fold that overwrites its accumulator with a value of the current
element returns the value of the last element, if any. -/
theorem foldl_overwrite_last (ftm : List (PyStr × SchemaTypeTag))
    (columns : List CSqlColumnNode) (init : Option SchemaMetadata) :
    columns.foldl (fun _sm field => some (custom_sql_schema ftm field)) init =
      (match columns.getLast? with
       | none => init
       | some c => some (custom_sql_schema ftm c)) := by
  induction columns using List.reverseRecOn with
  | nil => rfl
  | append_singleton l a ih => simp [List.foldl_append, List.getLast?_concat]

/-- C10: get_schema_metadata_for_custom_sql returns None on an empty
column list, and on a non-empty list returns a SchemaMetadata whose
fields list holds exactly one schema field, derived from the last column
— earlier columns are dropped because the accumulating list is reset on
each loop iteration. -/
theorem c10_custom_sql_schema_last_column (ftm : List (PyStr × SchemaTypeTag))
    (columns : List CSqlColumnNode) :
    get_schema_metadata_for_custom_sql ftm columns =
      Option.map (custom_sql_schema ftm) columns.getLast? ∧
    (∀ c, (custom_sql_schema ftm c).fields = [mkCustomSqlSchemaField ftm c]) := by
  constructor
  · rw [get_schema_metadata_for_custom_sql, foldl_overwrite_last]
    cases columns.getLast? <;> rfl
  · intro c
    rfl
